import Mathlib

/-!
# Verification of the personal-finance policy decision engine

Shallow embedding of `src/mcp_servers/policy_engine.py` (class `PolicyEngine`
and dataclass `PolicyDecision`) and of `src/agents/delegation_agent.py`
(class `DelegatedAgent`), together with theorems settling the specification
claims about them.

Modelling conventions:
* Python `float` amounts are modelled as `ℚ` (the claims only involve order
  comparisons, where rationals and binary floats agree on the values used).
* `datetime` instants are modelled as `Int` (comparison is all that is used);
  a configured `expiry_timestamp` string is modelled by `ExpiryField`: either
  it parses to an instant (`valid t`) or `datetime.fromisoformat` raises
  `ValueError` (`malformed`).
* The YAML rule file parsed into `self.policies` is modelled by the typed
  record `Policies`; a missing section or key is an `Option` that is `none`
  (or a list that is empty), matching the `.get(key, default)` accesses in
  the code.  Python dict lookup `delegation_policies.get(requester)` is
  modelled by association-list lookup.
* The dataclass field default `timestamp: datetime = datetime.now()` is
  evaluated once, at class-definition time; since no caller ever passes a
  timestamp, every decision carries that same constant, modelled by
  `classInitTime`.
-/

/-- A subscription record from the `mock_database` catalog section
(`id`, `name`, `category`, `amount`). -/
structure Subscription where
  id : String
  name : String
  category : String
  amount : ℚ
deriving DecidableEq, Repr

/-- The fate of a configured `expiry_timestamp` string under
`datetime.fromisoformat(expiry_str.replace("Z", "+00:00"))`:
either it parses to an instant or the parse raises `ValueError`. -/
inductive ExpiryField where
  | valid (t : Int)
  | malformed
deriving DecidableEq, Repr

/-- One entry of the `delegation_policies` section: the keys the engine reads
(`expiry_timestamp`, `allowed_subscriptions`, `max_amount`). -/
structure RolePolicies where
  expiry_timestamp : Option ExpiryField := none
  allowed_subscriptions : List String := []
  max_amount : Option ℚ := none
deriving DecidableEq, Repr

/-- Python truthiness of a role-policies mapping: `if not role_policies:`
treats a present-but-empty mapping the same as an absent one. -/
def RolePolicies.isEmpty (r : RolePolicies) : Bool :=
  r.expiry_timestamp.isNone && r.allowed_subscriptions.isEmpty && r.max_amount.isNone

/-- The `owner_policies` section. -/
structure OwnerPolicies where
  blocked_categories : List String := []
  max_cancellation_amount : Option ℚ := none
deriving DecidableEq, Repr

/-- The `global_rules` section.  `require_confirmation_above = none` models a
missing key, for which the code substitutes `float('inf')`: no finite spend
exceeds the limit. -/
structure GlobalRules where
  require_confirmation_above : Option ℚ := none
deriving DecidableEq, Repr

/-- The in-memory rule structure `self.policies` parsed from the YAML file. -/
structure Policies where
  mock_database : List Subscription := []
  owner_policies : OwnerPolicies := {}
  delegation_policies : List (String × RolePolicies) := []
  global_rules : GlobalRules := {}
deriving DecidableEq, Repr

/-- The empty rule structure `{}` that `_load_policies` falls back to. -/
def emptyPolicies : Policies := {}

/-- `PolicyEngine._load_policies`: a readable, well-formed source yields its
parsed rule structure; an unreadable or malformed source (`except Exception`)
is logged and yields `{}`.  `none` models the failing source. -/
def load_policies (source : Option Policies) : Policies :=
  source.getD emptyPolicies

/-- The single `datetime.now()` evaluated when the `PolicyDecision` dataclass
is defined: the shared default of the `timestamp` field.  Its concrete value
is irrelevant to every claim; only the fact that all decisions share it is. -/
def classInitTime : Int := 0

/-- The dataclass `PolicyDecision`. -/
structure PolicyDecision where
  allowed : Bool
  reason : String
  action : String
  resource_id : Option String := none
  requester : String := "unknown"
  timestamp : Int := classInitTime
deriving DecidableEq, Repr

/-- Engine state: the loaded rule structure and the in-memory audit log
`self._audit_log` (initially `[]`). -/
structure EngineState where
  policies : Policies
  audit_log : List PolicyDecision := []
deriving DecidableEq, Repr

/-- `PolicyEngine._get_subscription`: first entry of `mock_database` whose
`id` equals the argument, else `None`. -/
def get_subscription (p : Policies) (subscription_id : String) : Option Subscription :=
  p.mock_database.find? (fun sub => sub.id == subscription_id)

/-- Lookup in the `delegation_policies` mapping
(`self.policies.get("delegation_policies", {}).get(requester)`). -/
def lookupRole (p : Policies) (requester : String) : Option RolePolicies :=
  (p.delegation_policies.find? (fun e => e.1 == requester)).map (fun e => e.2)

/-- `PolicyEngine._log_decision`: append the decision to `self._audit_log`
(the logger call has no engine-visible effect). -/
def log_decision (st : EngineState) (decision : PolicyDecision) : EngineState :=
  ⟨st.policies, st.audit_log ++ [decision]⟩

/-- The expiry check of `check_delegation` (lines 113–125): deny only when a
configured expiry parses and `now > expiry`; a malformed string is logged and
falls through (fails open), as does an absent key. -/
def isExpired (now : Int) (rp : RolePolicies) : Bool :=
  match rp.expiry_timestamp with
  | some (ExpiryField.valid t) => decide (now > t)
  | some ExpiryField.malformed => false
  | none => false

/-- Python `str.lower()`, modelled character-wise on the string's data
(identical on the ASCII configuration values in play; `String.toLower`
itself is not kernel-reducible, which only matters for evaluation). -/
def pyLower (s : String) : String :=
  String.mk (s.data.map Char.toLower)

/-- The whitelist check of `check_delegation` (lines 127–129): the resource's
lowercased name or lowercased category occurs in the lowercased
`allowed_subscriptions` list. -/
def whitelistMatch (rp : RolePolicies) (sub : Subscription) : Bool :=
  let allowed_subs := rp.allowed_subscriptions.map pyLower
  allowed_subs.contains (pyLower sub.name) || allowed_subs.contains (pyLower sub.category)

/-- The decision computed by `PolicyEngine.check_delegation` (the appended
decision equals the returned one; logging is factored into the stateful
wrapper `check_delegation`). -/
def check_delegation_decision (now : Int) (p : Policies)
    (requester action resource_id : String) : PolicyDecision :=
  match get_subscription p resource_id with
  | none =>
      ⟨false, "Subscription not found.", action, some resource_id, requester, classInitTime⟩
  | some sub =>
      match lookupRole p requester with
      | none =>
          ⟨false, "No delegation policies defined for user '" ++ requester ++ "'.",
            action, some resource_id, requester, classInitTime⟩
      | some rp =>
          if rp.isEmpty then
            ⟨false, "No delegation policies defined for user '" ++ requester ++ "'.",
              action, some resource_id, requester, classInitTime⟩
          else if isExpired now rp then
            ⟨false, "DELEGATION BLOCK: Access has expired.",
              action, some resource_id, requester, classInitTime⟩
          else if ¬ whitelistMatch rp sub then
            ⟨false, "DELEGATION BLOCK: User '" ++ requester ++
              "' is not authorized to manage '" ++ sub.name ++ "'.",
              action, some resource_id, requester, classInitTime⟩
          else
            ⟨true, "Action permitted by delegation policies.",
              action, some resource_id, requester, classInitTime⟩

/-- `PolicyEngine.check_delegation`: compute the decision, append it to the
audit log, return it. -/
def check_delegation (now : Int) (st : EngineState)
    (requester action resource_id : String) : PolicyDecision × EngineState :=
  let decision := check_delegation_decision now st.policies requester action resource_id
  (decision, log_decision st decision)

/-- The decision computed by `PolicyEngine.can_cancel`. -/
def can_cancel_decision (now : Int) (p : Policies)
    (subscription_id requester : String) : PolicyDecision :=
  match get_subscription p subscription_id with
  | none =>
      ⟨false, "Subscription not found.", "cancel", some subscription_id, requester, classInitTime⟩
  | some sub =>
      if requester == "owner" then
        let owner_policies := p.owner_policies
        if sub.category ∈ owner_policies.blocked_categories then
          ⟨false, "CATEGORY BLOCK: Cannot cancel '" ++ sub.category ++
            "' subscriptions autonomously.",
            "cancel", some subscription_id, requester, classInitTime⟩
        else
          let limit := owner_policies.max_cancellation_amount.getD 0
          if sub.amount > limit then
            ⟨false, "AMOUNT BLOCK: Cost ($" ++ toString sub.amount ++
              ") exceeds cancellation limit ($" ++ toString limit ++ ").",
              "cancel", some subscription_id, requester, classInitTime⟩
          else
            ⟨true, "Action permitted by owner policies.",
              "cancel", some subscription_id, requester, classInitTime⟩
      else
        check_delegation_decision now p requester "cancel" subscription_id

/-- `PolicyEngine.can_cancel`: compute the decision, append it to the audit
log, return it.  (In the delegate branch the code returns
`check_delegation(...)`, which performs the single append itself; the
observable effect — one append of the returned decision — is the same.) -/
def can_cancel (now : Int) (st : EngineState)
    (subscription_id requester : String) : PolicyDecision × EngineState :=
  let decision := can_cancel_decision now st.policies subscription_id requester
  (decision, log_decision st decision)

/-- The decision computed by `PolicyEngine.is_within_budget`. -/
def is_within_budget_decision (p : Policies)
    (amount : ℚ) (category requester : String) : PolicyDecision :=
  if requester == "owner" then
    match p.global_rules.require_confirmation_above with
    | some limit =>
        if amount > limit then
          ⟨false, "Spend ($" ++ toString amount ++
            ") requires manual confirmation (Limit: $" ++ toString limit ++ ").",
            "spend", some category, requester, classInitTime⟩
        else
          ⟨true, "Spend within budget limits.", "spend", some category, requester, classInitTime⟩
    | none =>
        ⟨true, "Spend within budget limits.", "spend", some category, requester, classInitTime⟩
  else
    let rp := (lookupRole p requester).getD {}
    let limit := rp.max_amount.getD 0
    if amount > limit then
      ⟨false, "Spend ($" ++ toString amount ++ ") exceeds delegate limit ($" ++
        toString limit ++ ").",
        "spend", some category, requester, classInitTime⟩
    else
      ⟨true, "Spend within budget limits.", "spend", some category, requester, classInitTime⟩

/-- `PolicyEngine.is_within_budget`: compute the decision, append it to the
audit log, return it. -/
def is_within_budget (st : EngineState)
    (amount : ℚ) (category requester : String) : PolicyDecision × EngineState :=
  let decision := is_within_budget_decision st.policies amount category requester
  (decision, log_decision st decision)

/-- Result dictionary of `DelegatedAgent.attempt_action`: either the
`"blocked"` dictionary (reason, action, resource id) or the `"success"`
dictionary (message, details). -/
inductive ActionResult where
  | blocked (reason action resource_id : String)
  | success (message details : String)
deriving DecidableEq, Repr

/-- The caller-visible error channel of the Actor.  `invalidRequest` is the
specification's `InvalidRequest` outcome for an unrecognized action string;
the code in `delegation_agent.py` never produces it. -/
inductive AgentError where
  | invalidRequest (action : String)
deriving DecidableEq, Repr

instance : DecidableEq (Except AgentError ActionResult)
  | Except.ok a, Except.ok b =>
      if h : a = b then isTrue (by rw [h]) else isFalse (by simp [h])
  | Except.ok _, Except.error _ => isFalse (by simp)
  | Except.error _, Except.ok _ => isFalse (by simp)
  | Except.error a, Except.error b =>
      if h : a = b then isTrue (by rw [h]) else isFalse (by simp [h])

/-- `DelegatedAgent.attempt_action`: dispatch on the action string
(`"cancel"` → `can_cancel`, `"spend"` → `is_within_budget`, anything else →
the generic `check_delegation`), then translate the decision into the
blocked/success dictionary.  The `Except` layer records which paths return
normally and which would raise a caller-visible error; every path of the
code returns `Except.ok`. -/
def attempt_action (now : Int) (st : EngineState)
    (delegator_id action resource_id : String)
    (amount : ℚ) (category : String) : Except AgentError ActionResult × EngineState :=
  let out :=
    if action == "cancel" then
      can_cancel now st resource_id delegator_id
    else if action == "spend" then
      is_within_budget st amount category delegator_id
    else
      check_delegation now st delegator_id action resource_id
  let decision := out.1
  if ¬ decision.allowed then
    (Except.ok (ActionResult.blocked decision.reason action resource_id), out.2)
  else
    (Except.ok (ActionResult.success
        ("Successfully executed '" ++ action ++ "' on '" ++ resource_id ++ "'.")
        ("Authorized by policy: " ++ decision.reason)), out.2)

/-- One request to an audited engine entry point. -/
inductive Request where
  | cancel (subscription_id requester : String)
  | delegation (requester action resource_id : String)
  | spend (amount : ℚ) (category requester : String)

/-- Run one request against the engine. -/
def evalReq (now : Int) (st : EngineState) : Request → PolicyDecision × EngineState
  | Request.cancel sid r => can_cancel now st sid r
  | Request.delegation r a rid => check_delegation now st r a rid
  | Request.spend amt cat r => is_within_budget st amt cat r

/-- Run a sequence of requests, threading the engine state. -/
def runSeq (now : Int) (st : EngineState) (reqs : List Request) : EngineState :=
  reqs.foldl (fun s r => (evalReq now s r).2) st

/-- The decision a request produces, a function of the rule structure only. -/
def reqDecision (now : Int) (p : Policies) : Request → PolicyDecision
  | Request.cancel sid r => can_cancel_decision now p sid r
  | Request.delegation r a rid => check_delegation_decision now p r a rid
  | Request.spend amt cat r => is_within_budget_decision p amt cat r

/-- Spec-side (§8) delegation-allow condition, following the specification's
words: the requester has delegation rules defined, the configured expiry (if
any) has not passed, and the resource's lowercased name or lowercased
category appears in the lowercased whitelist. -/
def specDelegationAllows (now : Int) (p : Policies) (requester : String)
    (sub : Subscription) : Prop :=
  ∃ rp, lookupRole p requester = some rp ∧
    (∀ t, rp.expiry_timestamp = some (ExpiryField.valid t) → now ≤ t) ∧
    ((rp.allowed_subscriptions.map pyLower).contains (pyLower sub.name) = true ∨
     (rp.allowed_subscriptions.map pyLower).contains (pyLower sub.category) = true)

/-- The requester's configured expiry string, when present, parses
(no `ValueError`).  Well-formedness side condition of the claims that speak
about configured expiries. -/
def roleExpiryWellFormed (p : Policies) (requester : String) : Bool :=
  match lookupRole p requester with
  | some rp => rp.expiry_timestamp != some ExpiryField.malformed
  | none => true


/-- Concrete rule structure used by the witnesses: spec §8 scenario A's
resource and owner rules. -/
def P1 : Policies :=
  { mock_database := [⟨"sub_003", "JioFiber", "utility", 1200⟩],
    owner_policies :=
      { blocked_categories := ["utility"], max_cancellation_amount := some 500 },
    delegation_policies := [],
    global_rules := {} }

/-- **C1.** For every resource present in the catalog and requester equal to
the owner identity, `can_cancel` denies iff the resource's category is in the
owner's `blocked_categories` or its amount exceeds `max_cancellation_amount`;
and when both conditions hold the returned reason is the category-block
reason (category block takes precedence over amount block). -/
theorem can_cancel_owner_denial_iff (now : Int) (st : EngineState)
    (sid : String) (sub : Subscription) (L : ℚ)
    (hsub : get_subscription st.policies sid = some sub)
    (hL : st.policies.owner_policies.max_cancellation_amount = some L) :
    ((can_cancel now st sid "owner").1.allowed = false ↔
      sub.category ∈ st.policies.owner_policies.blocked_categories ∨ sub.amount > L) ∧
    (sub.category ∈ st.policies.owner_policies.blocked_categories ∧ sub.amount > L →
      (can_cancel now st sid "owner").1.reason =
        "CATEGORY BLOCK: Cannot cancel '" ++ sub.category ++
          "' subscriptions autonomously.") := by
  constructor
  · simp only [can_cancel, can_cancel_decision, hsub, hL]
    by_cases hc : sub.category ∈ st.policies.owner_policies.blocked_categories
    · simp [hc]
    · by_cases ha : sub.amount > L
      · simp [hc, ha]
      · simp [hc, ha]
  · rintro ⟨hc, ha⟩
    simp [can_cancel, can_cancel_decision, hsub, hc]

/-- Witness for C1 at spec §8 scenario A: resource `sub_003` (JioFiber,
utility, 1200), blocked category `utility`, cancellation limit 500. -/
theorem can_cancel_owner_denial_iff_witness :
    (((can_cancel 0 ⟨P1, []⟩ "sub_003" "owner").1.allowed = false ↔
        ("utility" : String) ∈ P1.owner_policies.blocked_categories ∨ (1200 : ℚ) > 500) ∧
      (("utility" : String) ∈ P1.owner_policies.blocked_categories ∧ (1200 : ℚ) > 500 →
        (can_cancel 0 ⟨P1, []⟩ "sub_003" "owner").1.reason =
          "CATEGORY BLOCK: Cannot cancel '" ++ "utility" ++
            "' subscriptions autonomously.")) :=
  can_cancel_owner_denial_iff 0 ⟨P1, []⟩ "sub_003"
    ⟨"sub_003", "JioFiber", "utility", 1200⟩ 500 (by decide) (by decide)

/-- Concrete rule structure for the delegation witnesses: spec §8 scenario B,
with a capitalised whitelist entry `"Spotify"` and an upper-cased resource
name `"SPOTIFY"` to exhibit case-insensitive matching. -/
def RP2 : RolePolicies :=
  { expiry_timestamp := none,
    allowed_subscriptions := ["Spotify", "Zomato Gold"],
    max_amount := some 500 }

def P2 : Policies :=
  { mock_database := [⟨"sub_002", "SPOTIFY", "streaming", 500⟩],
    owner_policies := {},
    delegation_policies := [("roommate", RP2)],
    global_rules := {} }

/-- Code-shaped characterization of when `check_delegation` allows, for a
resource present in the catalog: rules looked up, truthy, not expired,
whitelist matched. -/
lemma check_delegation_allowed_char (now : Int) (st : EngineState)
    (requester action rid : String) (sub : Subscription)
    (hsub : get_subscription st.policies rid = some sub) :
    (check_delegation now st requester action rid).1.allowed = true ↔
      ∃ rp, lookupRole st.policies requester = some rp ∧ rp.isEmpty = false ∧
        isExpired now rp = false ∧ whitelistMatch rp sub = true := by
  simp only [check_delegation, check_delegation_decision, hsub]
  cases hrole : lookupRole st.policies requester with
  | none => simp
  | some rp =>
      simp only [Option.some.injEq, exists_eq_left']
      by_cases he : rp.isEmpty
      · simp only [he, if_true]
        simp [he]
      · by_cases hex : isExpired now rp
        · simp only [he, hex]
          simp [he, hex]
        · by_cases hw : whitelistMatch rp sub
          · simp only [he, hex, hw]
            simp [he, hex, hw]
          · simp only [he, hex, hw]
            simp [he, hex, hw]

/-- A successful whitelist match forces a non-empty whitelist, hence a truthy
role-policies mapping. -/
lemma whitelistMatch_nonempty (rp : RolePolicies) (sub : Subscription)
    (h : whitelistMatch rp sub = true) : rp.isEmpty = false := by
  unfold whitelistMatch at h
  have hne : rp.allowed_subscriptions.isEmpty = false := by
    cases hcase : rp.allowed_subscriptions with
    | nil => rw [hcase] at h; simp at h
    | cons a l => rfl
  unfold RolePolicies.isEmpty
  simp [hne]

/-- For a well-formed expiry field, the code's expiry check fails exactly
when the spec-side "no expiry or now ≤ expiry" condition holds. -/
lemma isExpired_mk_false_iff (now : Int) (et : Option ExpiryField)
    (ws : List String) (ma : Option ℚ)
    (hwf : et ≠ some ExpiryField.malformed) :
    isExpired now ⟨et, ws, ma⟩ = false ↔
      ∀ t, et = some (ExpiryField.valid t) → now ≤ t := by
  cases et with
  | none => simp [isExpired]
  | some ef =>
      cases ef with
      | malformed => exact absurd rfl hwf
      | valid t =>
          simp only [isExpired, decide_eq_false_iff_not, not_lt]
          constructor
          · intro h t' ht'
            obtain rfl : t = t' := by
              cases ht'
              rfl
            exact h
          · intro h
            exact h t rfl

/-- **C2.** For every delegate identity and every resource present in the
catalog (with a well-formed expiry, when one is configured),
`check_delegation` allows iff the identity has delegation rules defined, the
configured expiry (if any) has not passed, and the resource's lowercased
name or lowercased category appears in the lowercased whitelist — so
whitelist matching is case-insensitive. -/
theorem check_delegation_allows_iff (now : Int) (st : EngineState)
    (requester action rid : String) (sub : Subscription)
    (hsub : get_subscription st.policies rid = some sub)
    (hwf : roleExpiryWellFormed st.policies requester = true) :
    (check_delegation now st requester action rid).1.allowed = true ↔
      specDelegationAllows now st.policies requester sub := by
  rw [check_delegation_allowed_char now st requester action rid sub hsub]
  unfold roleExpiryWellFormed at hwf
  unfold specDelegationAllows
  cases hrole : lookupRole st.policies requester with
  | none => simp
  | some rp =>
      rw [hrole] at hwf
      simp only [bne_iff_ne, ne_eq] at hwf
      obtain ⟨et, wsubs, ma⟩ := rp
      simp only [Option.some.injEq, exists_eq_left']
      rw [isExpired_mk_false_iff now et wsubs ma hwf]
      unfold whitelistMatch
      simp only [Bool.or_eq_true]
      constructor
      · rintro ⟨-, hexp, hw⟩
        exact ⟨hexp, hw⟩
      · rintro ⟨hexp, hw⟩
        refine ⟨?_, hexp, hw⟩
        exact whitelistMatch_nonempty ⟨et, wsubs, ma⟩ sub (by
          unfold whitelistMatch
          simp only [Bool.or_eq_true]
          exact hw)

/-- Witness for C2 at spec §8 scenario B, with the case flipped: whitelist
entry `"Spotify"`, resource named `"SPOTIFY"`. -/
theorem check_delegation_allows_iff_witness :
    ((check_delegation 100 ⟨P2, []⟩ "roommate" "modify" "sub_002").1.allowed = true ↔
      specDelegationAllows 100 P2 "roommate" ⟨"sub_002", "SPOTIFY", "streaming", 500⟩) :=
  check_delegation_allows_iff 100 ⟨P2, []⟩ "roommate" "modify" "sub_002"
    ⟨"sub_002", "SPOTIFY", "streaming", 500⟩ (by decide) (by decide)

/-- Two strings differ when their first `n` characters differ and the first
is built by appending onto an `n`-character-or-longer prefix. -/
lemma append_ne_of_take_ne (p a q : String) (n : Nat) (hn : n ≤ p.data.length)
    (h : p.data.take n ≠ q.data.take n) : p ++ a ≠ q := by
  intro heq
  apply h
  calc p.data.take n = (p.data ++ a.data).take n :=
        (List.take_append_of_le_length hn).symm
    _ = (p ++ a).data.take n := by rw [String.data_append]
    _ = q.data.take n := by rw [heq]

/-- **C3.** In `check_delegation` the reported reason follows the fixed
precedence resource-not-found > no-delegation-policy > expired >
whitelist-miss > allow: each conjunct pins the reason under its leading
condition with the later conditions unconstrained. -/
theorem check_delegation_reason_precedence (now : Int) (st : EngineState)
    (requester action rid : String) :
    (get_subscription st.policies rid = none →
      (check_delegation now st requester action rid).1.reason = "Subscription not found." ∧
      (check_delegation now st requester action rid).1.allowed = false) ∧
    (∀ sub, get_subscription st.policies rid = some sub →
      (lookupRole st.policies requester = none ∨
        (∃ rp, lookupRole st.policies requester = some rp ∧ rp.isEmpty = true)) →
      (check_delegation now st requester action rid).1.reason =
        "No delegation policies defined for user '" ++ requester ++ "'." ∧
      (check_delegation now st requester action rid).1.allowed = false) ∧
    (∀ sub rp t, get_subscription st.policies rid = some sub →
      lookupRole st.policies requester = some rp → rp.isEmpty = false →
      rp.expiry_timestamp = some (ExpiryField.valid t) → now > t →
      (check_delegation now st requester action rid).1.reason =
        "DELEGATION BLOCK: Access has expired." ∧
      (check_delegation now st requester action rid).1.allowed = false) ∧
    (∀ sub rp, get_subscription st.policies rid = some sub →
      lookupRole st.policies requester = some rp → rp.isEmpty = false →
      isExpired now rp = false → whitelistMatch rp sub = false →
      (check_delegation now st requester action rid).1.reason =
        "DELEGATION BLOCK: User '" ++ requester ++ "' is not authorized to manage '" ++
          sub.name ++ "'." ∧
      (check_delegation now st requester action rid).1.allowed = false) ∧
    (∀ sub rp, get_subscription st.policies rid = some sub →
      lookupRole st.policies requester = some rp → rp.isEmpty = false →
      isExpired now rp = false → whitelistMatch rp sub = true →
      (check_delegation now st requester action rid).1.reason =
        "Action permitted by delegation policies." ∧
      (check_delegation now st requester action rid).1.allowed = true) := by
  refine ⟨?_, ?_, ?_, ?_, ?_⟩
  · intro h
    simp [check_delegation, check_delegation_decision, h]
  · rintro sub hsub (hrole | ⟨rp, hrole, he⟩) <;>
      simp [check_delegation, check_delegation_decision, hsub, hrole]
    simp [he]
  · intro sub rp t hsub hrole he hexp hlt
    have hex : isExpired now rp = true := by
      simp [isExpired, hexp, hlt]
    simp [check_delegation, check_delegation_decision, hsub, hrole, he, hex]
  · intro sub rp hsub hrole he hex hw
    simp [check_delegation, check_delegation_decision, hsub, hrole, he, hex, hw]
  · intro sub rp hsub hrole he hex hw
    simp [check_delegation, check_delegation_decision, hsub, hrole, he, hex, hw]

/-- Witness for C3: the claim's own example — an unknown resource requested
(under `P1`) by an identity with no delegation policy still reports
`"Subscription not found."` (not-found beats no-policy). -/
theorem check_delegation_reason_precedence_witness :
    (check_delegation 0 ⟨P1, []⟩ "stranger" "cancel" "nope").1.reason =
      "Subscription not found." ∧
    (check_delegation 0 ⟨P1, []⟩ "stranger" "cancel" "nope").1.allowed = false :=
  (check_delegation_reason_precedence 0 ⟨P1, []⟩ "stranger" "cancel" "nope").1 (by decide)

/-- **C4.** For every non-owner requester, `is_within_budget` checks the
amount against that identity's configured `max_amount` (denies exactly when
the amount exceeds it), and a delegate with no configured maximum — no
delegation rules at all, or no `max_amount` key — gets a zero limit, so
every positive spend is denied. -/
theorem is_within_budget_delegate_limit (st : EngineState) (amount : ℚ)
    (category requester : String) (hreq : requester ≠ "owner") :
    (∀ rp m, lookupRole st.policies requester = some rp → rp.max_amount = some m →
      ((is_within_budget st amount category requester).1.allowed = false ↔ amount > m)) ∧
    ((lookupRole st.policies requester = none ∨
        (∃ rp, lookupRole st.policies requester = some rp ∧ rp.max_amount = none)) →
      0 < amount →
      (is_within_budget st amount category requester).1.allowed = false) := by
  have hb : (requester == "owner") = false := by
    simp [hreq]
  constructor
  · intro rp m hrole hmax
    simp [is_within_budget, is_within_budget_decision, hb, hrole, hmax]
    by_cases hgt : amount > m
    · simp [hgt]
    · simp [hgt]
  · rintro (hrole | ⟨rp, hrole, hmax⟩) hpos
    · simp [is_within_budget, is_within_budget_decision, hb, hrole, hpos]
    · simp [is_within_budget, is_within_budget_decision, hb, hrole, hmax, hpos]

/-- Witness for C4 at spec §8 scenario C: delegate `roommate` with
`max_amount = 500` spending 2000 is denied (2000 > 500). -/
theorem is_within_budget_delegate_limit_witness :
    ((is_within_budget ⟨P2, []⟩ 2000 "streaming" "roommate").1.allowed = false ↔
      (2000 : ℚ) > 500) :=
  (is_within_budget_delegate_limit ⟨P2, []⟩ 2000 "streaming" "roommate"
    (by decide)).1 RP2 500 (by decide) (by decide)

/-- **C5, counterexample.** Under the empty rule set that `_load_policies`
falls back to for an unreadable/malformed source, an owner spend check is
*allowed* (the missing confirmation threshold defaults to `float('inf')`),
so it is not the case that every evaluation returns a denied Decision. -/
theorem empty_rules_owner_spend_allowed_counterexample :
    load_policies none = emptyPolicies ∧
    (is_within_budget ⟨load_policies none, []⟩ 50 "misc" "owner").1.allowed = true := by
  constructor
  · rfl
  · rfl

/-- **C5, amended.** On a failed load the engine falls back to the empty rule
set instead of crashing; under it resource lookups return not-found,
`can_cancel` and `check_delegation` always return denied not-found Decisions,
and `is_within_budget` still returns a Decision: denied for every positive
delegate spend, but *allowed* for owner spends and non-positive delegate
spends. -/
theorem empty_rules_fallback_behaviour (now : Int) (l : List PolicyDecision) :
    load_policies none = emptyPolicies ∧
    (∀ rid, get_subscription emptyPolicies rid = none) ∧
    (∀ sid r, (can_cancel now ⟨emptyPolicies, l⟩ sid r).1.allowed = false ∧
      (can_cancel now ⟨emptyPolicies, l⟩ sid r).1.reason = "Subscription not found.") ∧
    (∀ r a rid, (check_delegation now ⟨emptyPolicies, l⟩ r a rid).1.allowed = false ∧
      (check_delegation now ⟨emptyPolicies, l⟩ r a rid).1.reason =
        "Subscription not found.") ∧
    (∀ (amt : ℚ) cat r, r ≠ "owner" → 0 < amt →
      (is_within_budget ⟨emptyPolicies, l⟩ amt cat r).1.allowed = false) ∧
    (∀ (amt : ℚ) cat,
      (is_within_budget ⟨emptyPolicies, l⟩ amt cat "owner").1.allowed = true) ∧
    (∀ (amt : ℚ) cat r, r ≠ "owner" → amt ≤ 0 →
      (is_within_budget ⟨emptyPolicies, l⟩ amt cat r).1.allowed = true) := by
  refine ⟨rfl, fun rid => rfl, fun sid r => ⟨rfl, rfl⟩, fun r a rid => ⟨rfl, rfl⟩,
    ?_, fun amt cat => rfl, ?_⟩
  · intro amt cat r hr hpos
    have hb : (r == "owner") = false := by
      simp [hr]
    simp [is_within_budget, is_within_budget_decision, hb, lookupRole, emptyPolicies, hpos]
  · intro amt cat r hr hle
    have hb : (r == "owner") = false := by
      simp [hr]
    have hng : ¬ amt > 0 := not_lt.mpr hle
    simp [is_within_budget, is_within_budget_decision, hb, lookupRole, emptyPolicies, hng]

/-- Witness for the amended C5: a delegate with no rules spending a positive
amount under the empty rule set is denied. -/
theorem empty_rules_fallback_behaviour_witness :
    (is_within_budget ⟨emptyPolicies, []⟩ 1 "misc" "roommate").1.allowed = false :=
  (empty_rules_fallback_behaviour 0 []).2.2.2.2.1 1 "misc" "roommate"
    (by decide) (by decide)

/-- **C6, counterexample.** An action string the dispatcher does not
recognize (`"access"`) does not surface a caller-visible `InvalidRequest`
error: `attempt_action` silently routes it through the generic
`check_delegation` path and returns an ordinary result dictionary. -/
theorem attempt_action_no_invalid_request_counterexample :
    (attempt_action 0 ⟨P2, []⟩ "roommate" "access" "sub_002" 0 "unknown").1 =
      Except.ok (ActionResult.success
        "Successfully executed 'access' on 'sub_002'."
        "Authorized by policy: Action permitted by delegation policies.") ∧
    (attempt_action 0 ⟨P2, []⟩ "roommate" "access" "sub_002" 0 "unknown").1 ≠
      Except.error (AgentError.invalidRequest "access") := by
  constructor
  · rfl
  · decide

/-- **C6, amended.** For every action string that is neither `"cancel"` nor
`"spend"`, `attempt_action` falls through to the generic `check_delegation`
path and returns a Decision-based blocked/success dictionary; it never
surfaces a caller-visible error. -/
theorem attempt_action_unrecognized_routes_to_delegation (now : Int)
    (st : EngineState) (D action rid : String) (amt : ℚ) (cat : String)
    (h1 : action ≠ "cancel") (h2 : action ≠ "spend") :
    (∀ e, (attempt_action now st D action rid amt cat).1 ≠ Except.error e) ∧
    (attempt_action now st D action rid amt cat).2 =
      (check_delegation now st D action rid).2 ∧
    (attempt_action now st D action rid amt cat).1 =
      (if (check_delegation now st D action rid).1.allowed then
        Except.ok (ActionResult.success
          ("Successfully executed '" ++ action ++ "' on '" ++ rid ++ "'.")
          ("Authorized by policy: " ++ (check_delegation now st D action rid).1.reason))
      else
        Except.ok (ActionResult.blocked
          (check_delegation now st D action rid).1.reason action rid)) := by
  have hb1 : (action == "cancel") = false := by
    simp [h1]
  have hb2 : (action == "spend") = false := by
    simp [h2]
  refine ⟨?_, ?_, ?_⟩
  · intro e
    simp only [attempt_action, hb1, hb2]
    by_cases hall : (check_delegation now st D action rid).1.allowed <;>
      simp [hall]
  · simp only [attempt_action, hb1, hb2]
    by_cases hall : (check_delegation now st D action rid).1.allowed <;>
      simp [hall]
  · simp only [attempt_action, hb1, hb2]
    by_cases hall : (check_delegation now st D action rid).1.allowed <;>
      simp [hall]

/-- Witness for the amended C6 at the action string `"access"`. -/
theorem attempt_action_unrecognized_routes_to_delegation_witness :
    (attempt_action 5 ⟨P1, []⟩ "stranger" "access" "nope" 0 "unknown").1 ≠
      Except.error (AgentError.invalidRequest "access") ∧
    (attempt_action 5 ⟨P1, []⟩ "stranger" "access" "nope" 0 "unknown").2 =
      (check_delegation 5 ⟨P1, []⟩ "stranger" "access" "nope").2 :=
  ⟨(attempt_action_unrecognized_routes_to_delegation 5 ⟨P1, []⟩ "stranger" "access"
      "nope" 0 "unknown" (by decide) (by decide)).1 (AgentError.invalidRequest "access"),
    (attempt_action_unrecognized_routes_to_delegation 5 ⟨P1, []⟩ "stranger" "access"
      "nope" 0 "unknown" (by decide) (by decide)).2.1⟩

/-- **C7.** A malformed configured expiry string fails open: for a delegate
whose expiry fails to parse, `check_delegation` never reports the expiry
reason and proceeds to the whitelist check, allowing exactly when the
whitelist matches. -/
theorem check_delegation_malformed_expiry_fails_open (now : Int) (st : EngineState)
    (requester action rid : String) (sub : Subscription) (rp : RolePolicies)
    (hsub : get_subscription st.policies rid = some sub)
    (hrole : lookupRole st.policies requester = some rp)
    (hmal : rp.expiry_timestamp = some ExpiryField.malformed) :
    (check_delegation now st requester action rid).1.allowed = whitelistMatch rp sub ∧
    (check_delegation now st requester action rid).1.reason ≠
      "DELEGATION BLOCK: Access has expired." := by
  have he : rp.isEmpty = false := by
    unfold RolePolicies.isEmpty
    simp [hmal]
  have hex : isExpired now rp = false := by
    simp [isExpired, hmal]
  by_cases hw : whitelistMatch rp sub
  · constructor
    · simp [check_delegation, check_delegation_decision, hsub, hrole, he, hex, hw]
    · have hr : (check_delegation now st requester action rid).1.reason =
          "Action permitted by delegation policies." := by
        simp [check_delegation, check_delegation_decision, hsub, hrole, he, hex, hw]
      rw [hr]
      decide
  · constructor
    · simp [check_delegation, check_delegation_decision, hsub, hrole, he, hex, hw]
    · have hr : (check_delegation now st requester action rid).1.reason =
          "DELEGATION BLOCK: User '" ++ requester ++
            "' is not authorized to manage '" ++ sub.name ++ "'." := by
        simp [check_delegation, check_delegation_decision, hsub, hrole, he, hex, hw]
      rw [hr]
      exact append_ne_of_take_ne "DELEGATION BLOCK: User '"
        (requester ++ "' is not authorized to manage '" ++ sub.name ++ "'.")
        "DELEGATION BLOCK: Access has expired." 19 (by decide) (by decide)

/-- Role policies with a malformed expiry, for the C7 witness. -/
def RP7 : RolePolicies :=
  { expiry_timestamp := some ExpiryField.malformed,
    allowed_subscriptions := ["Spotify"],
    max_amount := none }

/-- Rule structure for the C7 witness. -/
def P7 : Policies :=
  { mock_database := [⟨"sub_002", "Spotify", "streaming", 500⟩],
    owner_policies := {},
    delegation_policies := [("roommate", RP7)],
    global_rules := {} }

/-- Witness for C7: a delegate with an unparseable expiry and a matching
whitelist is allowed, and the reason is not the expiry reason. -/
theorem check_delegation_malformed_expiry_fails_open_witness :
    (check_delegation 0 ⟨P7, []⟩ "roommate" "modify" "sub_002").1.allowed =
      whitelistMatch RP7 ⟨"sub_002", "Spotify", "streaming", 500⟩ ∧
    (check_delegation 0 ⟨P7, []⟩ "roommate" "modify" "sub_002").1.reason ≠
      "DELEGATION BLOCK: Access has expired." :=
  check_delegation_malformed_expiry_fails_open 0 ⟨P7, []⟩ "roommate" "modify"
    "sub_002" ⟨"sub_002", "Spotify", "streaming", 500⟩ RP7
    (by decide) (by decide) (by decide)

/-- Each entry point computes its decision from the rule structure alone and
returns the state with exactly that decision appended. -/
lemma evalReq_eq (now : Int) (st : EngineState) (req : Request) :
    evalReq now st req =
      (reqDecision now st.policies req,
        ⟨st.policies, st.audit_log ++ [reqDecision now st.policies req]⟩) := by
  cases req <;> rfl

/-- Running a request sequence preserves the rule structure and appends the
requests' decisions in order. -/
lemma runSeq_spec (now : Int) : ∀ (reqs : List Request) (st : EngineState),
    (runSeq now st reqs).policies = st.policies ∧
    (runSeq now st reqs).audit_log =
      st.audit_log ++ reqs.map (reqDecision now st.policies) := by
  intro reqs
  induction reqs with
  | nil => intro st; simp [runSeq]
  | cons r rs ih =>
      intro st
      simp only [runSeq, List.foldl_cons] at ih ⊢
      rw [evalReq_eq]
      obtain ⟨hp, hl⟩ :=
        ih ⟨st.policies, st.audit_log ++ [reqDecision now st.policies r]⟩
      refine ⟨hp, ?_⟩
      rw [hl]
      simp [List.append_assoc]

/-- **C8.** Every call to `can_cancel`, `check_delegation` or
`is_within_budget` returns a state whose audit log is the old log with
exactly the returned Decision appended (so nothing is removed or mutated, on
every path including not-found and denials), and a sequence of N evaluations
grows the log by exactly N entries, in evaluation order. -/
theorem audit_log_append_only (now : Int) (st : EngineState) :
    (∀ sid r, (can_cancel now st sid r).2.audit_log =
      st.audit_log ++ [(can_cancel now st sid r).1]) ∧
    (∀ r a rid, (check_delegation now st r a rid).2.audit_log =
      st.audit_log ++ [(check_delegation now st r a rid).1]) ∧
    (∀ (amt : ℚ) cat r, (is_within_budget st amt cat r).2.audit_log =
      st.audit_log ++ [(is_within_budget st amt cat r).1]) ∧
    (∀ reqs : List Request,
      (runSeq now st reqs).audit_log =
        st.audit_log ++ reqs.map (reqDecision now st.policies) ∧
      (runSeq now st reqs).audit_log.length =
        st.audit_log.length + reqs.length) := by
  refine ⟨fun sid r => rfl, fun r a rid => rfl, fun amt cat r => rfl, ?_⟩
  intro reqs
  obtain ⟨hp, hl⟩ := runSeq_spec now reqs st
  refine ⟨hl, ?_⟩
  rw [hl]
  simp

/-- **C9.** Evaluating the same request twice against an unchanged rule set
yields two Decisions with identical `allowed` and `reason`, and both are
appended to the audit log in order (the log grows by 2, no deduplication). -/
theorem evaluate_twice_same_outcome (now : Int) (st : EngineState) (req : Request) :
    (evalReq now (evalReq now st req).2 req).1.allowed = (evalReq now st req).1.allowed ∧
    (evalReq now (evalReq now st req).2 req).1.reason = (evalReq now st req).1.reason ∧
    (evalReq now (evalReq now st req).2 req).2.audit_log =
      st.audit_log ++
        [(evalReq now st req).1, (evalReq now (evalReq now st req).2 req).1] := by
  refine ⟨?_, ?_, ?_⟩
  · rw [evalReq_eq now st req, evalReq_eq now _ req]
  · rw [evalReq_eq now st req, evalReq_eq now _ req]
  · rw [evalReq_eq now st req, evalReq_eq now _ req]
    simp

/-- **C10.** A delegate with delegation rules configured and a spend amount
within their `max_amount` is allowed by `is_within_budget` whatever the
configured expiry (even one in the past) and whitelist are: the spend check
consults neither (it does not even take the current time). -/
theorem is_within_budget_ignores_expiry_and_whitelist (st : EngineState)
    (amount : ℚ) (category requester : String) (rp : RolePolicies) (m : ℚ)
    (hreq : requester ≠ "owner")
    (hrole : lookupRole st.policies requester = some rp)
    (hmax : rp.max_amount = some m)
    (hamt : amount ≤ m) :
    (is_within_budget st amount category requester).1.allowed = true := by
  have hb : (requester == "owner") = false := by
    simp [hreq]
  have hng : ¬ amount > m := not_lt.mpr hamt
  simp [is_within_budget, is_within_budget_decision, hb, hrole, hmax, hng]

/-- Role policies with an expiry already in the past and an empty whitelist,
for the C10 witness. -/
def RP10 : RolePolicies :=
  { expiry_timestamp := some (ExpiryField.valid (-5)),
    allowed_subscriptions := [],
    max_amount := some 500 }

/-- Rule structure for the C10 witness. -/
def P10 : Policies :=
  { mock_database := [],
    owner_policies := {},
    delegation_policies := [("roommate", RP10)],
    global_rules := {} }

/-- Witness for C10: an expired delegate with an empty whitelist spending
within their limit is still allowed by the budget check. -/
theorem is_within_budget_ignores_expiry_and_whitelist_witness :
    (is_within_budget ⟨P10, []⟩ 300 "streaming" "roommate").1.allowed = true :=
  is_within_budget_ignores_expiry_and_whitelist ⟨P10, []⟩ 300 "streaming" "roommate"
    RP10 500 (by decide) (by decide) (by decide) (by decide)
